import Mathlib

/-!
Shallow embedding of the PyGPSClient core: the NMEA sentence reducer
(`pygpsclient/nmea_handler.py` together with `App.set_GNSS_status` from
`pygpsclient/app.py`) and the scatterplot engine
(`pygpsclient/scatter_frame.py`).  Python numbers (ints and floats) are
modelled as rationals; parser field values, which may also be the empty
string or a non-numeric string, are modelled by `NVal`.
-/

/-- Field value as delivered by the external NMEA parser (pynmeagps):
either the empty-string sentinel `""`, a numeric value (rationals model
Python ints/floats), or a non-numeric string. -/
inductive NVal where
  | empty
  | num (q : ℚ)
  | txt (s : String)
deriving DecidableEq

/-- Modelled from the spec: `knots2ms` (pygpsclient/helpers.py, not in
src/) converts knots to metres per second; a non-numeric field raises an
invalid-value error, modelled as `Except.error`.  One knot is 1852/3600 =
463/900 m/s, matching the spec scenario 10 knots to roughly 5.144 m/s. -/
def knots2ms : NVal → Except String ℚ
  | NVal.num q => Except.ok (q * (463 / 900))
  | NVal.empty => Except.error "could not convert empty value to float"
  | NVal.txt s => Except.error ("could not convert string to float: " ++ s)

/-- Modelled from the spec: `kmph2ms` (pygpsclient/helpers.py, not in
src/) converts km/h to m/s (factor 1000/3600 = 5/18); a non-numeric field
raises an invalid-value error. -/
def kmph2ms : NVal → Except String ℚ
  | NVal.num q => Except.ok (q * (5 / 18))
  | NVal.empty => Except.error "could not convert empty value to float"
  | NVal.txt s => Except.error ("could not convert string to float: " ++ s)

/-- Modelled from the spec: `fix2int` (pygpsclient/helpers.py, not in
src/) maps a raw quality code to the fix-quality enum via a lookup table
keyed by sentence type and code.  The spec specifies no concrete table
values and no claim depends on them, so the integer part of the numeric
code is returned, with unknown or non-numeric codes mapping to 0, the
no-fix sentinel.  The lookup is total: the spec's error taxonomy lists
only numeric-conversion failures as recoverable errors. -/
def fix2int (v : NVal) (_msgtype : String) : Int :=
  match v with
  | NVal.num q => q.floor
  | _ => 0

/-- Modelled from the spec: the formatted status message surfaced on an
invalid-value failure (`NMEAVALERROR.format(err)`; strings.py is not in
src/).  One message carries the original error text. -/
def nmeavalerror (err : String) : String :=
  "NMEA value error: " ++ err

/-- One entry of the cumulative satellite log `gsv_log`: the tuple
`(gnss, svid, elv, az, str(cno), now)` stored under its key. -/
structure SatEntry where
  gnssId : Nat
  svid : NVal
  elv : NVal
  az : NVal
  cno : String
  lastupdate : ℚ
deriving DecidableEq

/-- A visible-satellite tuple `(gnssId, svid, elev, azim, snr)` as
appended to `gsv_data`. -/
abbrev SatTuple := Nat × NVal × NVal × NVal × String

/-- Python `str()` applied to a parser field value, as used when storing
the `cno` field and when building log keys.  Only its results on the empty
string and on zero matter to the handler's `snr in ("", "0", 0)` test (the
parser delivers cno as an integer or the empty string); the decimal
rendering of other numbers is abstracted by an injective rendering. -/
def strOfNVal : NVal → String
  | NVal.empty => ""
  | NVal.num q => if q = 0 then "0" else "n" ++ toString q.num ++ "/" ++ toString q.den
  | NVal.txt s => s

/-- The mutable fix state held by `NMEAHandler` (nmea_handler.py lines
46-67). -/
structure FixState where
  utc : NVal
  lat : NVal
  lon : NVal
  alt : NVal
  track : NVal
  speed : NVal
  pdop : NVal
  hdop : NVal
  vdop : NVal
  hacc : NVal
  vacc : NVal
  sip : NVal
  fix : Int
  sep : NVal
  diffAge : NVal
  diffStation : NVal
  gsv_log : List (String × SatEntry)
  gsv_data : List SatTuple
deriving DecidableEq

/-- The initial fix state set up by `NMEAHandler.__init__` (lines 46-67):
`utc` is the empty string, all numeric fields are zero, the satellite log
and visible list are empty. -/
def initFixState : FixState :=
  { utc := NVal.empty, lat := NVal.num 0, lon := NVal.num 0, alt := NVal.num 0,
    track := NVal.num 0, speed := NVal.num 0, pdop := NVal.num 0, hdop := NVal.num 0,
    vdop := NVal.num 0, hacc := NVal.num 0, vacc := NVal.num 0, sip := NVal.num 0,
    fix := 0, sep := NVal.num 0, diffAge := NVal.num 0, diffStation := NVal.num 0,
    gsv_log := [], gsv_data := [] }

/-- One of the four satellite slots of a GSV sentence.  `missing` models
the slot's fields being absent from the message, so that attribute access
raises AttributeError, which `_process_GSV` catches, abandoning the
remaining slots; `svEmpty` models `svid == ""`; `sat` is a populated
slot. -/
inductive Slot where
  | missing
  | svEmpty
  | sat (svid elv az cno : NVal)
deriving DecidableEq

/-- Python dict assignment `d[k] = v` on an insertion-ordered dict
modelled as an association list: an existing key keeps its position and
has its value replaced, a new key is appended at the end. -/
def dictInsert {α : Type} (l : List (String × α)) (k : String) (v : α) :
    List (String × α) :=
  if (l.lookup k).isSome then
    l.map (fun e => if e.1 = k then (k, v) else e)
  else l ++ [(k, v)]

/-- Lines 246-292 of `_process_GSV`: build `gsv_dict` from the up-to-four
satellite slots, processed in order; a missing slot aborts the remaining
slots (the try/except AttributeError). -/
def gsvDictAux (gnss : Nat) (now : ℚ) :
    List Slot → List (String × SatEntry) → List (String × SatEntry)
  | [], acc => acc
  | Slot.missing :: _, acc => acc
  | Slot.svEmpty :: rest, acc => gsvDictAux gnss now rest acc
  | Slot.sat svid elv az cno :: rest, acc =>
      gsvDictAux gnss now rest
        (dictInsert acc (toString gnss ++ "-" ++ strOfNVal svid)
          { gnssId := gnss, svid := svid, elv := elv, az := az,
            cno := strOfNVal cno, lastupdate := now })

/-- The `gsv_dict` built by `_process_GSV` for one sentence. -/
def gsvDict (gnss : Nat) (now : ℚ) (slots : List Slot) :
    List (String × SatEntry) :=
  gsvDictAux gnss now slots []

/-- Lines 237-244 of `_process_GSV`: constellation enum from the talker
id; unrecognized talkers default to 0 (GPS, SBAS, QZSS). -/
def talker2gnss (t : String) : Nat :=
  if t = "GA" then 2
  else if t = "GB" then 3
  else if t = "GL" then 6
  else 0

/-- The visibility test of `_process_GSV` (lines 297-302) on one log
entry: skip entries whose SNR is zero or empty unless show-zero is set
(the Python test `snr in ("", "0", 0)`; the stored snr is always a string,
so the integer 0 of the tuple can never match), and keep only entries with
`now - lastupdate < SAT_EXPIRY`.  The expiry window constant `SAT_EXPIRY`
comes from globals.py (not in src/) and is passed as `expiry`. -/
def satVisible (showZero : Bool) (now expiry : ℚ) (e : SatEntry) : Bool :=
  (!((e.cno == "" || e.cno == "0") && !showZero)) &&
    decide (now - e.lastupdate < expiry)

/-- `_process_GSV` (nmea_handler.py lines 221-306): derive the
constellation from the talker id, upsert each populated slot into the
cumulative log `gsv_log`, then rebuild the visible list `gsv_data` by
scanning the whole log.  Returns the updated state together with the
satellites-in-view count reported to the banner, `len(self.gsv_data)`. -/
def processGSV (s : FixState) (showZero : Bool) (now expiry : ℚ)
    (talker : String) (slots : List Slot) : FixState × Nat :=
  let gnss := talker2gnss talker
  let gdict := gsvDict gnss now slots
  let newLog := gdict.foldl (fun l kv => dictInsert l kv.1 kv.2) s.gsv_log
  let newData :=
    (newLog.filter (fun kv => satVisible showZero now expiry kv.2)).map
      (fun kv => (kv.2.gnssId, kv.2.svid, kv.2.elv, kv.2.az, kv.2.cno))
  ({ s with gsv_log := newLog, gsv_data := newData }, newData.length)

/-- The conditional track update of `_process_RMC`: `if data.cog != "":
self.track = data.cog`. -/
def updTrack (s : FixState) (cog : NVal) : FixState :=
  if cog = NVal.empty then s else { s with track := cog }

/-- `_process_RMC` (lines 112-139): update utc/lat/lon, then speed (knots
to m/s) when present and course when present, inside try/except
ValueError: on a conversion failure the fields assigned before the failing
expression keep their new values, the remaining ones are untouched, and a
single formatted status message is emitted. -/
def processRMC (s : FixState) (time lat lon spd cog : NVal) :
    FixState × List String :=
  let s1 : FixState := { s with utc := time, lat := lat, lon := lon }
  if spd = NVal.empty then (updTrack s1 cog, [])
  else
    match knots2ms spd with
    | Except.error e => (s1, [nmeavalerror e])
    | Except.ok v => (updTrack { s1 with speed := NVal.num v } cog, [])

/-- `_process_GGA` (lines 141-180): update utc, satellites in use, lat,
lon, altitude, geoid separation, fix quality (via the GGA lookup),
differential age and station.  The track-recording branch only calls the
file-handler collaborator and touches no fix-state field. -/
def processGGA (s : FixState)
    (time numSV lat lon alt sep quality diffAge diffStation : NVal) :
    FixState × List String :=
  ({ s with
      utc := time
      sip := numSV
      lat := lat
      lon := lon
      alt := alt
      sep := sep
      fix := fix2int quality "GGA"
      diffAge := diffAge
      diffStation := diffStation }, [])

/-- `_process_GLL` (lines 182-201): update utc, lat, lon. -/
def processGLL (s : FixState) (time lat lon : NVal) : FixState × List String :=
  ({ s with utc := time, lat := lat, lon := lon }, [])

/-- `_process_GSA` (lines 203-219): update PDOP, HDOP, VDOP and fix
quality (via the GSA lookup).  This handler has no try/except. -/
def processGSA (s : FixState) (pdop hdop vdop navMode : NVal) :
    FixState × List String :=
  ({ s with
      pdop := pdop
      hdop := hdop
      vdop := vdop
      fix := fix2int navMode "GSA" }, [])

/-- `_process_VTG` (lines 308-322): update track, then speed (km/h to m/s)
when the sogk field is not None, inside try/except ValueError. -/
def processVTG (s : FixState) (cogt : NVal) (sogk : Option NVal) :
    FixState × List String :=
  let s1 : FixState := { s with track := cogt }
  match sogk with
  | none => (s1, [])
  | some v =>
    match kmph2ms v with
    | Except.error e => (s1, [nmeavalerror e])
    | Except.ok sp => ({ s1 with speed := NVal.num sp }, [])

/-- `_process_UBX00` (lines 324-337): update the horizontal and vertical
accuracy estimates. -/
def processUBX00 (s : FixState) (hAcc vAcc : NVal) : FixState × List String :=
  ({ s with hacc := hAcc, vacc := vAcc }, [])

/-- A decoded NMEA sentence as dispatched by `process_data`: the sentence
types the handler recognizes, with the fields each handler reads, plus
`other` for any sentence matching none of the msgID checks.  A proprietary
`ubx` sentence carries its msgId, checked against "00" at dispatch. -/
inductive Sentence where
  | rmc (time lat lon spd cog : NVal)
  | gga (time numSV lat lon alt sep quality diffAge diffStation : NVal)
  | gll (time lat lon : NVal)
  | gsa (pdop hdop vdop navMode : NVal)
  | vtg (cogt : NVal) (sogk : Option NVal)
  | gsv (talker : String) (slots : List Slot)
  | ubx (msgId : String) (hAcc vAcc : NVal)
  | other
deriving DecidableEq

/-- The sentence-type dispatch of `process_data` (lines 81-96): each msgID
check selects its handler (the checks are successive `if`s, but a message
carries exactly one msgID, so at most one fires); a UBX proprietary
sentence is handled only when its msgId is "00"; unmatched sentences leave
the fix state unchanged. -/
def dispatch (s : FixState) (showZero : Bool) (now expiry : ℚ) :
    Sentence → FixState × List String
  | Sentence.rmc time lat lon spd cog => processRMC s time lat lon spd cog
  | Sentence.gga time numSV lat lon alt sep quality diffAge diffStation =>
      processGGA s time numSV lat lon alt sep quality diffAge diffStation
  | Sentence.gll time lat lon => processGLL s time lat lon
  | Sentence.gsa pdop hdop vdop navMode => processGSA s pdop hdop vdop navMode
  | Sentence.vtg cogt sogk => processVTG s cogt sogk
  | Sentence.gsv talker slots =>
      ((processGSV s showZero now expiry talker slots).1, [])
  | Sentence.ubx msgId hAcc vAcc =>
      if msgId = "00" then processUBX00 s hAcc vAcc else (s, [])
  | Sentence.other => (s, [])

/-- The shared application status record `_GNSS_status` (app.py), an
insertion-ordered string-keyed dict. -/
abbrev GnssDict := List (String × NVal)

/-- The keyword arguments passed to `set_GNSS_status` at the end of
`process_data` (lines 98-110): exactly these ten fields, in this order. -/
def statusKwargs (s : FixState) : List (String × NVal) :=
  [("lat", s.lat), ("lon", s.lon), ("alt", s.alt),
   ("fix", NVal.num (s.fix : ℚ)), ("sip", s.sip), ("pdop", s.pdop),
   ("hdop", s.hdop), ("sep", s.sep), ("diffAge", s.diffAge),
   ("diffStation", s.diffStation)]

/-- `App.set_GNSS_status` (app.py lines 415-424): copy each keyword whose
key already exists in the status record; unknown keys are dropped
silently. -/
def setGNSSStatus (dict : GnssDict) (kwargs : List (String × NVal)) : GnssDict :=
  kwargs.foldl
    (fun d kv => if (d.lookup kv.1).isSome then dictInsert d kv.1 kv.2 else d)
    dict

/-- `NMEAHandler.process_data` (lines 69-110): a `None` raw buffer is a
no-op; otherwise dispatch on the sentence type and then republish a fixed
subset of the fix state to the shared status record via
`set_GNSS_status`.  Result: (new fix state, new status record, status
messages emitted). -/
def processData (s : FixState) (dict : GnssDict) (rawPresent showZero : Bool)
    (now expiry : ℚ) (d : Sentence) : FixState × GnssDict × List String :=
  if rawPresent then
    let p := dispatch s showZero now expiry d
    (p.1, setGNSSStatus dict (statusKwargs p.1), p.2)
  else (s, dict, [])

/-- Names of the fix-state fields, for stating frame conditions. -/
inductive FixField where
  | utc | lat | lon | alt | track | speed | pdop | hdop | vdop | hacc | vacc
  | sip | fix | sep | diffAge | diffStation | gsvLog | gsvData
deriving DecidableEq

/-- Project one named field out of the fix state. -/
inductive FView where
  | v (x : NVal)
  | i (n : Int)
  | log (l : List (String × SatEntry))
  | dat (l : List SatTuple)
deriving DecidableEq

/-- Field projection of the fix state. -/
def getF (s : FixState) : FixField → FView
  | FixField.utc => FView.v s.utc
  | FixField.lat => FView.v s.lat
  | FixField.lon => FView.v s.lon
  | FixField.alt => FView.v s.alt
  | FixField.track => FView.v s.track
  | FixField.speed => FView.v s.speed
  | FixField.pdop => FView.v s.pdop
  | FixField.hdop => FView.v s.hdop
  | FixField.vdop => FView.v s.vdop
  | FixField.hacc => FView.v s.hacc
  | FixField.vacc => FView.v s.vacc
  | FixField.sip => FView.v s.sip
  | FixField.fix => FView.i s.fix
  | FixField.sep => FView.v s.sep
  | FixField.diffAge => FView.v s.diffAge
  | FixField.diffStation => FView.v s.diffStation
  | FixField.gsvLog => FView.log s.gsv_log
  | FixField.gsvData => FView.dat s.gsv_data

/-- The set of fix-state fields each sentence type's handler may write
(the sentence type's "schema"), read off the assignments in each
`_process_*` handler. -/
def schema : Sentence → FixField → Bool
  | Sentence.rmc .., f =>
      f == FixField.utc || f == FixField.lat || f == FixField.lon ||
      f == FixField.speed || f == FixField.track
  | Sentence.gga .., f =>
      f == FixField.utc || f == FixField.sip || f == FixField.lat ||
      f == FixField.lon || f == FixField.alt || f == FixField.sep ||
      f == FixField.fix || f == FixField.diffAge || f == FixField.diffStation
  | Sentence.gll .., f =>
      f == FixField.utc || f == FixField.lat || f == FixField.lon
  | Sentence.gsa .., f =>
      f == FixField.pdop || f == FixField.hdop || f == FixField.vdop ||
      f == FixField.fix
  | Sentence.vtg .., f => f == FixField.track || f == FixField.speed
  | Sentence.gsv .., f => f == FixField.gsvLog || f == FixField.gsvData
  | Sentence.ubx .., f => f == FixField.hacc || f == FixField.vacc
  | Sentence.other, _ => false

lemma processData_frame (s : FixState) (dict : GnssDict) (showZero : Bool)
    (now expiry : ℚ) (d : Sentence) (f : FixField)
    (h : schema d f = false) :
    getF (processData s dict true showZero now expiry d).1 f = getF s f := by
  cases d <;> cases f <;>
    simp_all [processData, dispatch, schema, getF, processRMC, processGGA,
      processGLL, processGSA, processVTG, processUBX00, processGSV,
      updTrack] <;>
    (repeat' split) <;> rfl

/-- C1: for every prior fix state and every decoded sentence, each
fix-state field that is not part of the processed sentence type's schema
is equal to its value before `process_data` returned; no handler resets
another sentence type's fields to defaults. -/
theorem nmea_frame_preservation (s : FixState) (dict : GnssDict)
    (showZero : Bool) (now expiry : ℚ) (d : Sentence) (f : FixField)
    (h : schema d f = false) :
    getF (processData s dict true showZero now expiry d).1 f = getF s f :=
  processData_frame s dict showZero now expiry d f h

theorem nmea_frame_preservation_witness :
    schema (Sentence.gga NVal.empty NVal.empty NVal.empty NVal.empty
        NVal.empty NVal.empty NVal.empty NVal.empty NVal.empty)
        FixField.speed = false ∧
    getF (processData initFixState [] true false 0 10
        (Sentence.gga NVal.empty NVal.empty NVal.empty NVal.empty NVal.empty
          NVal.empty NVal.empty NVal.empty NVal.empty)).1 FixField.speed
      = getF initFixState FixField.speed :=
  ⟨by decide,
   nmea_frame_preservation initFixState [] false 0 10 _ FixField.speed
     (by decide)⟩

/-- C2: after `_process_GSV` rebuilds the visible satellite list, every
entry of the list comes from a log entry that has not expired
(`now - lastSeen < expiryWindow`) and, when show-zero is disabled, whose
SNR string is neither "" nor "0" (the stored SNR is always a string, so
the integer 0 of the source's membership test can never match); the
satellites-in-view count reported to the banner equals the length of this
filtered list. -/
theorem gsv_visible_filter (s : FixState) (showZero : Bool) (now expiry : ℚ)
    (talker : String) (slots : List Slot) :
    (∀ t ∈ (processGSV s showZero now expiry talker slots).1.gsv_data,
      ∃ kv ∈ (processGSV s showZero now expiry talker slots).1.gsv_log,
        now - kv.2.lastupdate < expiry ∧
        (showZero = false → kv.2.cno ≠ "" ∧ kv.2.cno ≠ "0") ∧
        t = (kv.2.gnssId, kv.2.svid, kv.2.elv, kv.2.az, kv.2.cno)) ∧
    (processGSV s showZero now expiry talker slots).2
      = (processGSV s showZero now expiry talker slots).1.gsv_data.length := by
  constructor
  · intro t ht
    simp only [processGSV, List.mem_map, List.mem_filter] at ht
    obtain ⟨kv, ⟨hmem, hvis⟩, rfl⟩ := ht
    simp only [satVisible, Bool.and_eq_true, Bool.not_eq_true',
      Bool.and_eq_false_iff, Bool.or_eq_false_iff, decide_eq_true_eq,
      beq_eq_false_iff_ne, Bool.not_eq_false'] at hvis
    refine ⟨kv, ?_, ?_, ?_, rfl⟩
    · simpa [processGSV] using hmem
    · exact hvis.2
    · intro hz
      rcases hvis.1 with hbad | hsz
      · exact hbad
      · rw [hz] at hsz
        cases hsz
  · rfl

theorem gsv_visible_filter_witness :
    ∃ kv ∈ (processGSV initFixState false 0 10 "GP"
        [Slot.sat (NVal.num 5) (NVal.num 30) (NVal.num 100)
          (NVal.num 40)]).1.gsv_log,
      (0 : ℚ) - kv.2.lastupdate < 10 ∧
      (false = false → kv.2.cno ≠ "" ∧ kv.2.cno ≠ "0") ∧
      ((0, NVal.num 5, NVal.num 30, NVal.num 100, "n40/1") : SatTuple)
        = (kv.2.gnssId, kv.2.svid, kv.2.elv, kv.2.az, kv.2.cno) :=
  (gsv_visible_filter initFixState false 0 10 "GP"
      [Slot.sat (NVal.num 5) (NVal.num 30) (NVal.num 100) (NVal.num 40)]).1
    (0, NVal.num 5, NVal.num 30, NVal.num 100, "n40/1")
    (by with_unfolding_all decide)

/-- Whether an Except result is an error. -/
def isErr : Except String ℚ → Bool
  | Except.error _ => true
  | Except.ok _ => false

/-- Whether the sentence's handler performs a numeric conversion that
fails: RMC when its speed-over-ground field is present but does not
convert, VTG when its km/h speed field is not None but does not
convert. -/
def convFails : Sentence → Bool
  | Sentence.rmc _ _ _ spd _ => (!(spd == NVal.empty)) && isErr (knots2ms spd)
  | Sentence.vtg _ (some v) => isErr (kmph2ms v)
  | _ => false

/-- C7: when a handler's numeric conversion fails, the failure is caught
locally: `process_data` returns normally with exactly one formatted status
message, every field outside the sentence's schema (in particular the
other handlers' previously-set fields) keeps its value, and the final
republish step still runs on the resulting state. -/
theorem conversion_error_contained (s : FixState) (dict : GnssDict)
    (showZero : Bool) (now expiry : ℚ) (d : Sentence)
    (h : convFails d = true) :
    (∃ e, (processData s dict true showZero now expiry d).2.2
        = [nmeavalerror e]) ∧
    (∀ f, schema d f = false →
      getF (processData s dict true showZero now expiry d).1 f = getF s f) ∧
    (processData s dict true showZero now expiry d).2.1
      = setGNSSStatus dict
          (statusKwargs (processData s dict true showZero now expiry d).1) := by
  refine ⟨?_, fun f hf => processData_frame s dict showZero now expiry d f hf,
    by simp [processData]⟩
  cases d with
  | rmc time lat lon spd cog =>
      simp only [convFails, Bool.and_eq_true, Bool.not_eq_true',
        beq_eq_false_iff_ne] at h
      obtain ⟨h1, h2⟩ := h
      cases he : knots2ms spd with
      | ok v => rw [he] at h2; cases h2
      | error e =>
          refine ⟨e, ?_⟩
          simp [processData, dispatch, processRMC, h1, he]
  | vtg cogt sogk =>
      cases sogk with
      | none => simp [convFails] at h
      | some v =>
          cases he : kmph2ms v with
          | ok sp => simp [convFails, he, isErr] at h
          | error e =>
              refine ⟨e, ?_⟩
              simp [processData, dispatch, processVTG, he]
  | gga time numSV lat lon alt sep quality diffAge diffStation =>
      simp [convFails] at h
  | gll time lat lon => simp [convFails] at h
  | gsa pdop hdop vdop navMode => simp [convFails] at h
  | gsv talker slots => simp [convFails] at h
  | ubx msgId hAcc vAcc => simp [convFails] at h
  | other => simp [convFails] at h

theorem conversion_error_contained_witness :
    convFails (Sentence.rmc NVal.empty (NVal.num 51) (NVal.num 0)
        (NVal.txt "xx") NVal.empty) = true ∧
    (∃ e, (processData initFixState [] true false 0 10
        (Sentence.rmc NVal.empty (NVal.num 51) (NVal.num 0) (NVal.txt "xx")
          NVal.empty)).2.2 = [nmeavalerror e]) :=
  ⟨by decide,
   (conversion_error_contained initFixState [] false 0 10
      (Sentence.rmc NVal.empty (NVal.num 51) (NVal.num 0) (NVal.txt "xx")
        NVal.empty) (by decide)).1⟩

/-- The canonical GNSS status record created in `App.__init__` (app.py
lines 104-122): seventeen fixed keys, here with the value slots
abstracted. -/
structure GnssRecord where
  utc : NVal
  lat : NVal
  lon : NVal
  alt : NVal
  speed : NVal
  track : NVal
  fix : NVal
  siv : NVal
  sip : NVal
  pdop : NVal
  hdop : NVal
  vdop : NVal
  hacc : NVal
  vacc : NVal
  sep : NVal
  diffAge : NVal
  diffStation : NVal
deriving DecidableEq

/-- The status record as the insertion-ordered dict of `App.__init__`. -/
def toDict (g : GnssRecord) : GnssDict :=
  [("utc", g.utc), ("lat", g.lat), ("lon", g.lon), ("alt", g.alt),
   ("speed", g.speed), ("track", g.track), ("fix", g.fix), ("siv", g.siv),
   ("sip", g.sip), ("pdop", g.pdop), ("hdop", g.hdop), ("vdop", g.vdop),
   ("hacc", g.hacc), ("vacc", g.vacc), ("sep", g.sep),
   ("diffAge", g.diffAge), ("diffStation", g.diffStation)]

/-- The initial status record values of `App.__init__`: zero everywhere
except `fix`, which starts at 5. -/
def initGnssRecord : GnssRecord :=
  { utc := NVal.num 0, lat := NVal.num 0, lon := NVal.num 0,
    alt := NVal.num 0, speed := NVal.num 0, track := NVal.num 0,
    fix := NVal.num 5, siv := NVal.num 0, sip := NVal.num 0,
    pdop := NVal.num 0, hdop := NVal.num 0, vdop := NVal.num 0,
    hacc := NVal.num 0, vacc := NVal.num 0, sep := NVal.num 0,
    diffAge := NVal.num 0, diffStation := NVal.num 0 }

/-- The effect of `process_data`'s republish step on the canonical status
record: exactly the ten keys passed to `set_GNSS_status` are overwritten
from the fix state; utc, speed, track, vdop, hacc, vacc and siv are not
among them. -/
def republishTo (g : GnssRecord) (f : FixState) : GnssRecord :=
  { g with
      lat := f.lat
      lon := f.lon
      alt := f.alt
      fix := NVal.num (f.fix : ℚ)
      sip := f.sip
      pdop := f.pdop
      hdop := f.hdop
      sep := f.sep
      diffAge := f.diffAge
      diffStation := f.diffStation }

set_option maxHeartbeats 2000000 in
lemma setGNSS_toDict (g : GnssRecord) (f : FixState) :
    setGNSSStatus (toDict g) (statusKwargs f) = toDict (republishTo g f) := by
  simp [setGNSSStatus, statusKwargs, toDict, republishTo, dictInsert,
    List.lookup]

lemma updKeyFst {α : Type} (l : List (String × α)) (k : String) (v : α) :
    (l.map (fun e => if e.1 = k then (k, v) else e)).map Prod.fst
      = l.map Prod.fst := by
  induction l with
  | nil => rfl
  | cons e t ih =>
      simp only [List.map_cons, ih]
      congr 1
      split
      · next h => exact h.symm
      · rfl

lemma setGNSSStatus_keys (dict : GnssDict) (kwargs : List (String × NVal)) :
    (setGNSSStatus dict kwargs).map Prod.fst = dict.map Prod.fst := by
  induction kwargs generalizing dict with
  | nil => rfl
  | cons kv rest ih =>
      show (setGNSSStatus
        (if (dict.lookup kv.1).isSome then dictInsert dict kv.1 kv.2 else dict)
        rest).map Prod.fst = dict.map Prod.fst
      rw [ih]
      split
      · next hs =>
          simp only [dictInsert, hs, if_pos]
          exact updKeyFst dict kv.1 kv.2
      · rfl

set_option maxHeartbeats 4000000 in
/-- C9 counterexample: the fix state's speed (previously set to 7 m/s by
an earlier sentence) is NOT republished to the status record by
`process_data` - after processing a GLL sentence the record's "speed"
entry keeps its old value 0 while the fix state's speed is 7; so not all
accumulated fix-state fields are republished. -/
theorem gnss_republish_cex :
    ((processData { initFixState with speed := NVal.num 7 }
        (toDict initGnssRecord) true false 0 10
        (Sentence.gll NVal.empty (NVal.num 1) (NVal.num 2))).1).speed
      = NVal.num 7 ∧
    ((processData { initFixState with speed := NVal.num 7 }
        (toDict initGnssRecord) true false 0 10
        (Sentence.gll NVal.empty (NVal.num 1) (NVal.num 2))).2.1).lookup
        "speed" = some (NVal.num 0) ∧
    NVal.num 7 ≠ NVal.num 0 := by
  refine ⟨?_, ?_, ?_⟩ <;> with_unfolding_all decide

set_option maxHeartbeats 2000000 in
/-- C9 (amended): after every decoded sentence, `process_data`
republishes the fix-state fields lat, lon, alt, fix, sip, pdop, hdop,
sep, diffAge and diffStation - and only those - to the shared status
record; the record's other entries are unchanged, and `set_GNSS_status`
copies only keys already present in the canonical schema, dropping
unknown keys silently (the key set never changes). -/
theorem gnss_republish_amended (s : FixState) (g : GnssRecord)
    (showZero : Bool) (now expiry : ℚ) (d : Sentence) :
    (processData s (toDict g) true showZero now expiry d).2.1
      = toDict (republishTo g
          (processData s (toDict g) true showZero now expiry d).1) ∧
    ∀ (dict : GnssDict) (kwargs : List (String × NVal)),
      (setGNSSStatus dict kwargs).map Prod.fst = dict.map Prod.fst := by
  constructor
  · have h := setGNSS_toDict g (dispatch s showZero now expiry d).1
    simpa only [processData, if_true] using h
  · exact setGNSSStatus_keys

/-- Modelled from the spec: the `Point` container from globals.py (not in
src/) - an immutable (latitude, longitude) pair. -/
structure Point where
  lat : ℚ
  lon : ℚ
deriving DecidableEq

/-- Modelled from the spec: the `Area` bounding box from globals.py (not
in src/) - four scalar edges, south latitude `lat1`, west longitude
`lon1`, north latitude `lat2`, east longitude `lon2`, as assembled by
`_set_bounds` (`Area(b.lat, l.lon, t.lat, r.lon)`). -/
structure Area where
  lat1 : ℚ
  lon1 : ℚ
  lat2 : ℚ
  lon2 : ℚ
deriving DecidableEq

/-- Modelled from the spec: `in_bounds` (helpers.py, not in src/) -
whether a point falls inside the bounding box. -/
def inBounds (b : Area) (p : Point) : Bool :=
  decide (b.lat1 ≤ p.lat) && decide (p.lat ≤ b.lat2) &&
  decide (b.lon1 ≤ p.lon) && decide (p.lon ≤ b.lon2)

/-- `ScatterViewFrame._ll2xy` (scatter_frame.py lines 334-351): linear
mapping of a lat/lon position within the bounding box `b` to canvas x/y
coordinates on a canvas of width `cw` and height `ch`, with the vertical
axis flipped. -/
def ll2xy (cw ch : ℚ) (b : Area) (p : Point) : ℚ × ℚ :=
  let lw := b.lon2 - b.lon1
  let lh := b.lat2 - b.lat1
  let lwp := lw / cw
  let lhp := lh / ch
  ((p.lon - b.lon1) / lwp, ch - (p.lat - b.lat1) / lhp)

/-- `ScatterViewFrame._xy2ll` (scatter_frame.py lines 353-370): inverse
mapping of canvas x/y coordinates back to a lat/lon position. -/
def xy2ll (cw ch : ℚ) (b : Area) (xy : ℚ × ℚ) : Point :=
  let lw := b.lon2 - b.lon1
  let lh := b.lat2 - b.lat1
  let cwp := cw / lw
  let chp := ch / lh
  { lat := b.lat1 + (ch - xy.2) / chp, lon := b.lon1 + xy.1 / cwp }

/-- `MAXPOINTS` (scatter_frame.py line 50): capacity of the scatter point
history. -/
def MAXPOINTS : Nat := 100000

/-- `ScatterViewFrame._scale_factors` (scatter_frame.py lines 100-119):
plot radius in metres per scale index, descending from 5000 at index 0 to
0.01 at index 17. -/
def scaleFactors : List ℚ :=
  [5000, 2000, 1000, 500, 200, 100, 50, 20, 10, 5, 2, 1,
   0.5, 0.2, 0.1, 0.05, 0.02, 0.01]

/-- `_on_zoom` (scatter_frame.py lines 194-208): the mousewheel adjusts
the scale index, incrementing only below the top index and decrementing
only above 0. -/
def onZoom (delta : Int) (sc : Nat) : Nat :=
  let sl := scaleFactors.length - 1
  if delta > 0 then (if sc < sl then sc + 1 else sc)
  else if delta < 0 then (if sc > 0 then sc - 1 else sc)
  else sc

/-- `_do_autorange` (scatter_frame.py lines 482-498): while the scale
index is above 0 and some retained point is out of bounds, decrement the
index and recompute the bounding box.  `bnds` abstracts `_set_bounds` at
the fixed center point and canvas size, giving the bounding box for each
scale index (its geodesic helper `get_point_at_vector` is not in src/).
The loop variable strictly decreases on every iteration, so the recursion
is structural - the Python loop terminates. -/
def doAutorange (bnds : Nat → Area) (pts : List Point) : Nat → Nat
  | 0 => 0
  | n + 1 =>
      if pts.all (fun p => inBounds (bnds (n + 1)) p) then n + 1
      else doAutorange bnds pts n

/-- Python `float()` conversion of a status value: numeric values
convert; the empty string and non-numeric strings raise ValueError
(numeric strings, which would also convert, are represented by
`NVal.num`). -/
def nvalToRat : NVal → Option ℚ
  | NVal.num q => some q
  | _ => none

/-- The point-history step of `ScatterViewFrame.update_frame` (lines
444-463): ignore non-numeric positions, do not plot without a fix,
suppress an exact repeat of the last point, append, and evict the oldest
point when the capacity is exceeded.  The subsequent average, bounds,
autorange and redraw steps do not modify the history. -/
def updateFrame (pts : List Point) (lat lon : NVal) (fixq : String) :
    List Point :=
  match nvalToRat lat, nvalToRat lon with
  | some la, some lo =>
      if fixq = "NO FIX" then pts
      else
        let pos : Point := { lat := la, lon := lo }
        if pts ≠ [] ∧ pts.getLast? = some pos then pts
        else
          let pts1 := pts ++ [pos]
          if pts1.length > MAXPOINTS then pts1.drop 1 else pts1
  | _, _ => pts

/-- A sequence of `update_frame` calls starting from the empty history
set up by the constructor. -/
def runUpdates (inputs : List (NVal × NVal × String)) : List Point :=
  inputs.foldl (fun pts i => updateFrame pts i.1 i.2.1 i.2.2) []

lemma updateFrame_length_le (pts : List Point) (lat lon : NVal)
    (fixq : String) (h : pts.length ≤ MAXPOINTS) :
    (updateFrame pts lat lon fixq).length ≤ MAXPOINTS := by
  unfold updateFrame
  cases nvalToRat lat with
  | none => exact h
  | some la =>
      cases nvalToRat lon with
      | none => exact h
      | some lo =>
          simp only
          split
          · exact h
          · split
            · exact h
            · split
              · next hgt =>
                  simp only [List.length_drop, List.length_append,
                    List.length_cons, List.length_nil]
                  omega
              · next hle =>
                  simp only [List.length_append, List.length_cons,
                    List.length_nil] at hle ⊢
                  omega

lemma runUpdates_length_le (inputs : List (NVal × NVal × String)) :
    (runUpdates inputs).length ≤ MAXPOINTS := by
  suffices h : ∀ (pts : List Point), pts.length ≤ MAXPOINTS →
      (inputs.foldl (fun pts i => updateFrame pts i.1 i.2.1 i.2.2)
        pts).length ≤ MAXPOINTS by
    exact h [] (by simp [MAXPOINTS])
  induction inputs with
  | nil => intro pts h; exact h
  | cons i rest ih =>
      intro pts h
      exact ih _ (updateFrame_length_le pts i.1 i.2.1 i.2.2 h)

/-- C5: the scatter history never exceeds the capacity of 100000 after
any `update_frame` call of any call sequence, and when an append occurs
while the history is at capacity, exactly the oldest point is evicted and
all other points are retained in order. -/
theorem scatter_capacity_fifo :
    (∀ inputs : List (NVal × NVal × String),
        (runUpdates inputs).length ≤ MAXPOINTS) ∧
    (∀ (pts : List Point) (lat lon : NVal) (fixq : String) (la lo : ℚ),
      pts.length = MAXPOINTS → nvalToRat lat = some la →
      nvalToRat lon = some lo → fixq ≠ "NO FIX" →
      pts.getLast? ≠ some { lat := la, lon := lo } →
      updateFrame pts lat lon fixq
        = pts.drop 1 ++ [{ lat := la, lon := lo }]) := by
  refine ⟨runUpdates_length_le, ?_⟩
  intro pts lat lon fixq la lo hlen hla hlo hfix hlast
  unfold updateFrame
  rw [hla, hlo]
  simp only
  rw [if_neg hfix, if_neg (fun hc => hlast hc.2), if_pos (by simp [hlen])]
  rw [List.drop_append_eq_append_drop]
  simp [hlen, MAXPOINTS]

lemma getLast?_replicate_succ (n : Nat) (x : Point) :
    (List.replicate (n + 1) x).getLast? = some x := by
  induction n with
  | zero => rfl
  | succ m ih =>
      rw [List.replicate_succ, List.replicate_succ,
        List.getLast?_cons_cons, ← List.replicate_succ]
      exact ih

theorem scatter_capacity_fifo_witness :
    updateFrame (List.replicate MAXPOINTS { lat := 1, lon := 1 })
        (NVal.num 0) (NVal.num 0) "3D"
      = (List.replicate MAXPOINTS ({ lat := 1, lon := 1 } : Point)).drop 1
          ++ [{ lat := 0, lon := 0 }] :=
  scatter_capacity_fifo.2 _ _ _ _ _ _ (by simp) rfl rfl (by decide)
    (by rw [show MAXPOINTS = 99999 + 1 from rfl, getLast?_replicate_succ]
        with_unfolding_all decide)

/-- C6: invoking `update_frame` with a position equal to the last
appended point leaves the history unchanged - consecutive duplicates are
never appended. -/
theorem scatter_dup_suppressed (pts : List Point) (lat lon : NVal)
    (fixq : String) (la lo : ℚ) (h1 : nvalToRat lat = some la)
    (h2 : nvalToRat lon = some lo)
    (h3 : pts.getLast? = some { lat := la, lon := lo }) :
    updateFrame pts lat lon fixq = pts := by
  have hne : pts ≠ [] := by rintro rfl; simp at h3
  unfold updateFrame
  rw [h1, h2]
  simp only
  by_cases hf : fixq = "NO FIX"
  · rw [if_pos hf]
  · rw [if_neg hf, if_pos ⟨hne, h3⟩]

theorem scatter_dup_suppressed_witness :
    updateFrame [{ lat := 10, lon := 10 }] (NVal.num 10) (NVal.num 10) "3D"
      = [{ lat := 10, lon := 10 }] :=
  scatter_dup_suppressed _ _ _ _ _ _ rfl rfl rfl

/-- C3: for every bounding box with nonzero longitude and latitude spans,
every positive canvas size, and every point inside the box, `_xy2ll` is
the exact algebraic inverse of `_ll2xy` (exact over the rationals, hence
within rounding tolerance for floats). -/
theorem ll2xy_xy2ll_inverse (cw ch : ℚ) (b : Area) (p : Point)
    (hcw : 0 < cw) (hch : 0 < ch) (hlw : b.lon2 - b.lon1 ≠ 0)
    (hlh : b.lat2 - b.lat1 ≠ 0) (hin : inBounds b p = true) :
    xy2ll cw ch b (ll2xy cw ch b p) = p := by
  obtain ⟨plat, plon⟩ := p
  have hcw0 : cw ≠ 0 := ne_of_gt hcw
  have hch0 : ch ≠ 0 := ne_of_gt hch
  simp only [ll2xy, xy2ll, Point.mk.injEq]
  constructor
  · field_simp
  · field_simp

theorem ll2xy_xy2ll_inverse_witness :
    xy2ll 400 300 { lat1 := 0, lon1 := 0, lat2 := 10, lon2 := 10 }
        (ll2xy 400 300 { lat1 := 0, lon1 := 0, lat2 := 10, lon2 := 10 }
          { lat := 5, lon := 7 })
      = { lat := 5, lon := 7 } :=
  ll2xy_xy2ll_inverse 400 300
    { lat1 := 0, lon1 := 0, lat2 := 10, lon2 := 10 } { lat := 5, lon := 7 }
    (by norm_num) (by norm_num) (by norm_num) (by norm_num)
    (by with_unfolding_all decide)

lemma autorange_post (bnds : Nat → Area) (pts : List Point) (s : Nat) :
    pts.all (fun p => inBounds (bnds (doAutorange bnds pts s)) p) = true ∨
    doAutorange bnds pts s = 0 := by
  induction s with
  | zero => exact Or.inr rfl
  | succ n ih =>
      by_cases h : pts.all (fun p => inBounds (bnds (n + 1)) p) = true
      · left
        simp only [doAutorange, h, if_true]
      · have hf : pts.all (fun p => inBounds (bnds (n + 1)) p) = false :=
          Bool.eq_false_iff.mpr h
        simp only [doAutorange, hf, Bool.false_eq_true, if_false]
        exact ih

lemma autorange_le (bnds : Nat → Area) (pts : List Point) (s : Nat) :
    doAutorange bnds pts s ≤ s := by
  induction s with
  | zero => exact Nat.le_refl 0
  | succ n ih =>
      by_cases h : pts.all (fun p => inBounds (bnds (n + 1)) p) = true
      · simp only [doAutorange, h, if_true]
        exact Nat.le_refl (n + 1)
      · have hf : pts.all (fun p => inBounds (bnds (n + 1)) p) = false :=
          Bool.eq_false_iff.mpr h
        simp only [doAutorange, hf, Bool.false_eq_true, if_false]
        exact Nat.le_succ_of_le ih

/-- C4: for every point set, every bounds function and every initial
scale index, the autorange loop terminates (the model is a structurally
decreasing recursion mirroring the strictly decreasing loop variable),
and when it stops either all retained points lie inside the current
bounding box or the scale index has reached its stopping bound 0. -/
theorem autorange_terminates (bnds : Nat → Area) (pts : List Point)
    (s : Nat) :
    pts.all (fun p => inBounds (bnds (doAutorange bnds pts s)) p) = true ∨
    doAutorange bnds pts s = 0 :=
  autorange_post bnds pts s

/-- C8 counterexample: in the code, scale index 0 carries the LARGEST
radius (5000 m, not the spec's smallest 0.01 m), and `_do_autorange`
never increases the index: with the scale at index 0 and a point far
outside the bounding box, the loop guard `self._scale.get() > 0` fails at
once and the index stays 0 instead of increasing. -/
theorem autorange_zoomout_cex :
    scaleFactors.get? 0 = some 5000 ∧ (5000 : ℚ) ≠ 0.01 ∧
    inBounds { lat1 := 0, lon1 := 0, lat2 := 1, lon2 := 1 }
      { lat := 50, lon := 50 } = false ∧
    doAutorange (fun _ => { lat1 := 0, lon1 := 0, lat2 := 1, lon2 := 1 })
      [{ lat := 50, lon := 50 }] 0 = 0 := by
  refine ⟨rfl, ?_, ?_, rfl⟩ <;> with_unfolding_all decide

/-- C8 (amended): in the code the radius sequence is descending - index 0
is the largest radius 5000 m and the top index 17 is the smallest radius
0.01 m - and autorange only DEcreases the index: with the scale at any
positive index and at least one retained point outside the current
bounding box, `_do_autorange` strictly decreases the scale index (zooming
out to a larger radius) until all points are inside or index 0 is
reached. -/
theorem autorange_zoomout (bnds : Nat → Area) (pts : List Point) (s : Nat)
    (hs : 0 < s)
    (hout : pts.all (fun p => inBounds (bnds s) p) = false) :
    doAutorange bnds pts s < s ∧
    (pts.all (fun p => inBounds (bnds (doAutorange bnds pts s)) p) = true ∨
      doAutorange bnds pts s = 0) ∧
    scaleFactors.get? 17 = some 0.01 ∧ scaleFactors.get? 0 = some 5000 := by
  obtain ⟨n, rfl⟩ : ∃ n, s = n + 1 := ⟨s - 1, by omega⟩
  refine ⟨?_, autorange_post bnds pts (n + 1), rfl, rfl⟩
  have hstep : doAutorange bnds pts (n + 1) = doAutorange bnds pts n := by
    simp only [doAutorange, hout, Bool.false_eq_true, if_false]
  rw [hstep]
  exact Nat.lt_succ_of_le (autorange_le bnds pts n)

theorem autorange_zoomout_witness :
    doAutorange (fun _ => { lat1 := 0, lon1 := 0, lat2 := 1, lon2 := 1 })
        [{ lat := 50, lon := 50 }] 3 < 3 :=
  (autorange_zoomout
      (fun _ => { lat1 := 0, lon1 := 0, lat2 := 1, lon2 := 1 })
      [{ lat := 50, lon := 50 }] 3 (by decide)
      (by with_unfolding_all decide)).1

/-- C10: every operation that modifies the scale index - the mousewheel
zoom `_on_zoom` and the autorange loop - keeps it within
[0, len(scale_factors) - 1] (the index is a nonnegative Nat by type; zoom
increments only below the top index and decrements only above 0;
autorange only ever decrements), so indexing the scale-factor table never
goes out of range. -/
theorem scale_index_in_range :
    (∀ (delta : Int) (sc : Nat), sc < scaleFactors.length →
        onZoom delta sc < scaleFactors.length) ∧
    (∀ (bnds : Nat → Area) (pts : List Point) (s : Nat),
        s < scaleFactors.length →
        doAutorange bnds pts s < scaleFactors.length) := by
  constructor
  · intro delta sc hsc
    simp only [onZoom]
    split
    · split
      · next h => omega
      · exact hsc
    · split
      · split
        · next h => omega
        · exact hsc
      · exact hsc
  · intro bnds pts s hs
    exact Nat.lt_of_le_of_lt (autorange_le bnds pts s) hs

theorem scale_index_in_range_witness :
    onZoom 1 17 < scaleFactors.length ∧
    doAutorange (fun _ => { lat1 := 0, lon1 := 0, lat2 := 1, lon2 := 1 })
        [] 5 < scaleFactors.length :=
  ⟨scale_index_in_range.1 1 17 (by decide),
   scale_index_in_range.2
     (fun _ => { lat1 := 0, lon1 := 0, lat2 := 1, lon2 := 1 }) [] 5
     (by decide)⟩
